import Mathlib

/-!
Verification of the mushroom-classifier-go request/response exchange core.

The development shallowly embeds the Go packages `base64`, `httpclient` and
`openai` of the repository.  Pure Go functions become Lean functions; the
network and the filesystem are modelled as explicit outcome oracles passed to
the functions that perform I/O; Go's `encoding/json` Unmarshal for the
response schema is modelled by a concrete JSON parser plus a field decoder
that mirrors Go's decoding rules for the `chatCompletionResponse` struct
(unknown fields skipped, `null` handled, type mismatches rejected; inputs
that would engage Go's case-insensitive field matching are rejected rather
than mis-modelled, which only narrows the set of accepted documents).
-/

namespace GoJson

/-- Abstract syntax of a JSON document.  Numbers keep their raw lexeme: the
chat-completion schema decodes no numeric field, so their value is never
needed. -/
inductive Json where
  | null
  | boolean (b : Bool)
  | num (raw : String)
  | str (s : String)
  | arr (elems : List Json)
  | obj (fields : List (String × Json))

/-- JSON insignificant whitespace. -/
def isWs (ch : Char) : Bool :=
  ch = ' ' || ch = '\t' || ch = '\n' || ch = '\r'

/-- Drop leading insignificant whitespace. -/
def skipWs : List Char → List Char
  | [] => []
  | ch :: rest => if isWs ch then skipWs rest else ch :: rest

/-- Value of a hexadecimal digit. -/
def hexVal (ch : Char) : Option Nat :=
  if '0' ≤ ch ∧ ch ≤ '9' then some (ch.toNat - 48)
  else if 'a' ≤ ch ∧ ch ≤ 'f' then some (ch.toNat - 87)
  else if 'A' ≤ ch ∧ ch ≤ 'F' then some (ch.toNat - 55)
  else none

/-- Prepend a character to the first component of a parser result. -/
def consFst (ch : Char) (p : List Char × List Char) : List Char × List Char :=
  (ch :: p.1, p.2)

/-- Parse the body of a JSON string after the opening quote, returning the
decoded characters and the remaining input.  Escape sequences follow RFC 8259;
a `\u` escape is accepted only for scalar values (surrogate code points are
rejected, which narrows rather than distorts the accepted set). -/
def parseStringBody : List Char → Option (List Char × List Char)
  | [] => none
  | '"' :: rest => some ([], rest)
  | '\\' :: '"' :: rest => (parseStringBody rest).map (consFst '"')
  | '\\' :: '\\' :: rest => (parseStringBody rest).map (consFst '\\')
  | '\\' :: '/' :: rest => (parseStringBody rest).map (consFst '/')
  | '\\' :: 'b' :: rest => (parseStringBody rest).map (consFst (Char.ofNat 8))
  | '\\' :: 'f' :: rest => (parseStringBody rest).map (consFst (Char.ofNat 12))
  | '\\' :: 'n' :: rest => (parseStringBody rest).map (consFst '\n')
  | '\\' :: 'r' :: rest => (parseStringBody rest).map (consFst '\r')
  | '\\' :: 't' :: rest => (parseStringBody rest).map (consFst '\t')
  | '\\' :: 'u' :: h1 :: h2 :: h3 :: h4 :: rest =>
      match hexVal h1, hexVal h2, hexVal h3, hexVal h4 with
      | some a, some b, some c, some d =>
          let n := a * 4096 + b * 256 + c * 16 + d
          if n < 55296 then (parseStringBody rest).map (consFst (Char.ofNat n))
          else if 57343 < n then (parseStringBody rest).map (consFst (Char.ofNat n))
          else none
      | _, _, _, _ => none
  | '\\' :: _ => none
  | ch :: rest =>
      if ch.toNat < 32 then none
      else (parseStringBody rest).map (consFst ch)

/-- Take a maximal run of decimal digits. -/
def takeDigits : List Char → List Char × List Char
  | [] => ([], [])
  | ch :: rest =>
      if ch.isDigit then
        let p := takeDigits rest
        (ch :: p.1, p.2)
      else ([], ch :: rest)

/-- Lex the integer part of a JSON number (after an optional sign): either a
single `0` or a nonzero digit followed by digits. -/
def lexInt : List Char → Option (List Char × List Char)
  | '0' :: rest => some (['0'], rest)
  | ch :: rest =>
      if ch.isDigit then
        let p := takeDigits rest
        some (ch :: p.1, p.2)
      else none
  | [] => none

/-- Lex an optional fraction part. -/
def lexFrac : List Char → Option (List Char × List Char)
  | '.' :: rest =>
      match takeDigits rest with
      | ([], _) => none
      | (ds, r) => some ('.' :: ds, r)
  | cs => some ([], cs)

/-- Lex an optional exponent part. -/
def lexExp : List Char → Option (List Char × List Char)
  | [] => some ([], [])
  | ch :: rest =>
      if ch = 'e' ∨ ch = 'E' then
        match rest with
        | s :: r2 =>
            if s = '+' ∨ s = '-' then
              match takeDigits r2 with
              | ([], _) => none
              | (ds, r) => some (ch :: s :: ds, r)
            else
              match takeDigits rest with
              | ([], _) => none
              | (ds, r) => some (ch :: ds, r)
        | [] => none
      else some ([], ch :: rest)

/-- Lex a complete JSON number, returning its raw lexeme. -/
def lexNumber (cs : List Char) : Option (List Char × List Char) :=
  match cs with
  | '-' :: rest => do
      let (i, r1) ← lexInt rest
      let (f, r2) ← lexFrac r1
      let (e, r3) ← lexExp r2
      some ('-' :: (i ++ f ++ e), r3)
  | _ => do
      let (i, r1) ← lexInt cs
      let (f, r2) ← lexFrac r1
      let (e, r3) ← lexExp r2
      some (i ++ f ++ e, r3)

mutual

/-- Parse one JSON value; `fuel` bounds the recursion depth. -/
def parseVal : Nat → List Char → Option (Json × List Char)
  | 0, _ => none
  | Nat.succ fuel, cs =>
    match skipWs cs with
    | 'n' :: 'u' :: 'l' :: 'l' :: rest => some (Json.null, rest)
    | 't' :: 'r' :: 'u' :: 'e' :: rest => some (Json.boolean true, rest)
    | 'f' :: 'a' :: 'l' :: 's' :: 'e' :: rest => some (Json.boolean false, rest)
    | '"' :: rest =>
        (parseStringBody rest).map (fun p => (Json.str (String.mk p.1), p.2))
    | '[' :: rest =>
        (match skipWs rest with
         | ']' :: rest2 => some (Json.arr [], rest2)
         | cs2 => (parseItems fuel cs2).map (fun p => (Json.arr p.1, p.2)))
    | '{' :: rest =>
        (match skipWs rest with
         | '}' :: rest2 => some (Json.obj [], rest2)
         | cs2 => (parseFields fuel cs2).map (fun p => (Json.obj p.1, p.2)))
    | cs2 => (lexNumber cs2).map (fun p => (Json.num (String.mk p.1), p.2))

/-- Parse the comma-separated items of a non-empty array, up to and including
the closing bracket. -/
def parseItems : Nat → List Char → Option (List Json × List Char)
  | 0, _ => none
  | Nat.succ fuel, cs => do
    let (v, rest) ← parseVal fuel cs
    match skipWs rest with
    | ',' :: rest2 => (parseItems fuel rest2).map (fun p => (v :: p.1, p.2))
    | ']' :: rest2 => some ([v], rest2)
    | _ => none

/-- Parse the comma-separated members of a non-empty object, up to and
including the closing brace. -/
def parseFields : Nat → List Char → Option (List (String × Json) × List Char)
  | 0, _ => none
  | Nat.succ fuel, cs =>
    match skipWs cs with
    | '"' :: rest =>
        match parseStringBody rest with
        | none => none
        | some (key, rest1) =>
          match skipWs rest1 with
          | ':' :: rest2 =>
              match parseVal fuel rest2 with
              | none => none
              | some (v, rest3) =>
                match skipWs rest3 with
                | ',' :: rest4 =>
                    (parseFields fuel rest4).map
                      (fun p => ((String.mk key, v) :: p.1, p.2))
                | '}' :: rest4 => some ([(String.mk key, v)], rest4)
                | _ => none
          | _ => none
    | _ => none

end

/-- Parse a complete JSON document: one value, with only whitespace allowed
after it (Go's Unmarshal rejects trailing data the same way). -/
def parseJson (s : String) : Option Json :=
  match parseVal (s.length + 1) s.data with
  | some (v, rest) => if skipWs rest = [] then some v else none
  | none => none

end GoJson

namespace base64

/-- Base64 value of sextet `n` in the RFC 4648 standard alphabet. -/
def encChar (n : Nat) : Char :=
  if n < 26 then Char.ofNat (65 + n)
  else if n < 52 then Char.ofNat (71 + n)
  else if n < 62 then Char.ofNat (n - 4)
  else if n = 62 then '+'
  else '/'

/-- Sextet value of a standard-alphabet base64 character. -/
def dec6 (ch : Char) : Nat :=
  if 'A' ≤ ch ∧ ch ≤ 'Z' then ch.toNat - 65
  else if 'a' ≤ ch ∧ ch ≤ 'z' then ch.toNat - 71
  else if '0' ≤ ch ∧ ch ≤ '9' then ch.toNat + 4
  else if ch = '+' then 62
  else if ch = '/' then 63
  else 0

/-- Whether a character belongs to the standard base64 alphabet. -/
def validB64 (ch : Char) : Bool :=
  decide (('A' ≤ ch ∧ ch ≤ 'Z') ∨ ('a' ≤ ch ∧ ch ≤ 'z') ∨
    ('0' ≤ ch ∧ ch ≤ '9') ∨ ch = '+' ∨ ch = '/')

/-- RFC 4648 standard base64 encoding of a byte sequence (bytes as naturals
below 256), with `=` padding, as performed by Go's
`base64.StdEncoding.EncodeToString`. -/
def encB64 : List Nat → List Char
  | [] => []
  | [b1] => [encChar (b1 / 4), encChar (b1 % 4 * 16), '=', '=']
  | [b1, b2] =>
      [encChar (b1 / 4), encChar (b1 % 4 * 16 + b2 / 16),
       encChar (b2 % 16 * 4), '=']
  | b1 :: b2 :: b3 :: rest =>
      encChar (b1 / 4) :: encChar (b1 % 4 * 16 + b2 / 16) ::
      encChar (b2 % 16 * 4 + b3 / 64) :: encChar (b3 % 64) :: encB64 rest

/-- RFC 4648 standard padded base64 decoding, the inverse direction of
`encB64`; returns `none` on input that is not a valid padded encoding. -/
def decB64 : List Char → Option (List Nat)
  | [] => some []
  | a :: b :: c3 :: d4 :: rest =>
      if c3 = '=' then
        if d4 = '=' ∧ rest = [] ∧ validB64 a = true ∧ validB64 b = true then
          some [dec6 a * 4 + dec6 b / 16]
        else none
      else if d4 = '=' then
        if rest = [] ∧ validB64 a = true ∧ validB64 b = true ∧
            validB64 c3 = true then
          some [dec6 a * 4 + dec6 b / 16, dec6 b % 16 * 16 + dec6 c3 / 4]
        else none
      else
        if validB64 a = true ∧ validB64 b = true ∧ validB64 c3 = true ∧
            validB64 d4 = true then
          (decB64 rest).map
            (fun ds =>
              (dec6 a * 4 + dec6 b / 16) :: (dec6 b % 16 * 16 + dec6 c3 / 4) ::
              ((dec6 c3 % 4 * 64 + dec6 d4) :: ds))
        else none
  | _ => none

/-- Embedding of `base64.EncodeData`: encodes binary data to a Base64 string
via Go's `base64.StdEncoding.EncodeToString`. -/
def EncodeData (data : List Nat) : String :=
  String.mk (encB64 data)

/-- Outcome of the `os.ReadFile` call inside `ReadImageToBase64`: either the
file's bytes, or the error text of the failed read. -/
def ReadFileOutcome : Type := Except String (List Nat)

/-- Embedding of `base64.ReadImageToBase64`: reads a file (outcome supplied by
the `readResult` oracle), rejects an empty file, and otherwise encodes the
bytes with `EncodeData`. -/
def ReadImageToBase64 (readResult : Except String (List Nat))
    (filename : String) : Except String String :=
  match readResult with
  | .error e => .error ("failed to read file " ++ filename ++ ": " ++ e)
  | .ok data =>
      if data.length = 0 then .error ("file " ++ filename ++ " is empty")
      else .ok (EncodeData data)

end base64

namespace httpclient

/-- Embedding of `httpclient.Request`: parameters for an HTTP POST request. -/
structure Request where
  URL : String
  AuthToken : String
  JSONBody : String
deriving DecidableEq

/-- Embedding of `httpclient.Response`: body bytes (as a string) and HTTP
status code of a completed exchange. -/
structure Response where
  Body : String
  StatusCode : Int
deriving DecidableEq

/-- Oracle for the I/O performed inside `PostJSON`: either one of the three
library calls fails (`http.NewRequest`, `client.Do`, `io.ReadAll`, each with
its error text), or the exchange completes with a status code and body. -/
inductive NetworkOutcome where
  | createRequestFailure (msg : String)
  | performFailure (msg : String)
  | readBodyFailure (msg : String)
  | httpResponse (statusCode : Int) (body : String)

/-- Embedding of `httpclient.PostJSON`.  The Go function returns a
`(*Response, error)` pair, modelled as `Option Response × Option String`; on a
completed exchange with status ≥ 400 it returns the response together with a
non-nil `HTTP error` error, mirroring lines 75-85 of the source. -/
def PostJSON (net : NetworkOutcome) (req : Request) :
    Option Response × Option String :=
  match net with
  | .createRequestFailure e => (none, some ("failed to create request: " ++ e))
  | .performFailure e => (none, some ("failed to perform request: " ++ e))
  | .readBodyFailure e => (none, some ("failed to read response body: " ++ e))
  | .httpResponse status body =>
      let response : Response := { Body := body, StatusCode := status }
      if 400 ≤ status then
        (some response, some ("HTTP error " ++ toString status ++ ": " ++ body))
      else
        (some response, none)

end httpclient

namespace openai

/-- Embedding of `openai.Request`: parameters for an image-analysis call. -/
structure Request where
  APIKey : String
  APIURL : String
  Model : String
  Prompt : String
  Base64Image : String
  MaxTokens : Int
deriving DecidableEq

/-- Embedding of `openai.Response`: normalized result of an analysis call. -/
structure Response where
  Content : String
  ErrorMessage : String
  Success : Bool
deriving DecidableEq

/-- Embedding of the `imageURL` JSON struct. -/
structure imageURL where
  URL : String
deriving DecidableEq

/-- Embedding of the `content` JSON struct (one part of a message); the Go
field `Type` is rendered `Type'` because `Type` is reserved in Lean. -/
structure content where
  Type' : String
  Text : String
  ImageURL : Option imageURL
deriving DecidableEq

/-- Embedding of the `message` JSON struct. -/
structure message where
  Role : String
  Content : List content
deriving DecidableEq

/-- Embedding of the `chatCompletionRequest` JSON struct. -/
structure chatCompletionRequest where
  Model : String
  Messages : List message
  MaxTokens : Int
deriving DecidableEq

/-- Embedding of the anonymous `Message` struct inside a response choice. -/
structure choiceMessage where
  Content : String
deriving DecidableEq

/-- Embedding of one element of the `Choices` slice of the response. -/
structure choice where
  Message : choiceMessage
deriving DecidableEq

/-- Embedding of the anonymous `Error` struct of the response; the Go field
`Type` is rendered `Type'`. -/
structure apiError where
  Message : String
  Type' : String
  Code : String
deriving DecidableEq

/-- Embedding of the `chatCompletionResponse` JSON struct; the `*struct`
pointer field `Error` becomes an `Option`. -/
structure chatCompletionResponse where
  Choices : List choice
  Error : Option apiError
deriving DecidableEq

/-- Lowercase the ASCII letters of a string. -/
def asciiLower (s : String) : String :=
  String.mk (s.data.map
    (fun ch => if 'A' ≤ ch ∧ ch ≤ 'Z' then Char.ofNat (ch.toNat + 32) else ch))

/-- Whether every character of a string is ASCII. -/
def allAscii (s : String) : Bool :=
  s.data.all (fun ch => ch.toNat < 128)

/-- Whether an object key that matched no struct field exactly may be safely
skipped: it must be ASCII and must not match any known field name
case-insensitively (Go's Unmarshal would match such a key to the field; those
documents are rejected rather than mis-decoded). -/
def unknownKeyOk (known : List String) (k : String) : Bool :=
  allAscii k && known.all (fun f => asciiLower k ≠ f)

/-- Decode a JSON value into a Go `string` field holding `cur`: a JSON string
replaces the value, `null` is a no-op, anything else is a type error. -/
def decodeStringField (cur : String) : GoJson.Json → Except String String
  | .str s => .ok s
  | .null => .ok cur
  | _ => .error "json: cannot unmarshal value into field of type string"

/-- Decode a JSON value into the choice `Message` struct, updating `cur`
field by field in document order as Go's Unmarshal does. -/
def decodeChoiceMessage (cur : choiceMessage) :
    GoJson.Json → Except String choiceMessage
  | .null => .ok cur
  | .obj fields =>
      fields.foldlM
        (fun acc kv =>
          if kv.1 = "content" then
            (decodeStringField acc.Content kv.2).map (fun s => { Content := s })
          else if unknownKeyOk ["content"] kv.1 then .ok acc
          else .error "json: unsupported field key")
        cur
  | _ => .error "json: cannot unmarshal value into struct"

/-- Decode a JSON value into one element of the `Choices` slice. -/
def decodeChoice (cur : choice) : GoJson.Json → Except String choice
  | .null => .ok cur
  | .obj fields =>
      fields.foldlM
        (fun acc kv =>
          if kv.1 = "message" then
            (decodeChoiceMessage acc.Message kv.2).map (fun m => { Message := m })
          else if unknownKeyOk ["message"] kv.1 then .ok acc
          else .error "json: unsupported field key")
        cur
  | _ => .error "json: cannot unmarshal value into struct"

/-- Decode a JSON value into the `Choices` slice: an array rebuilds the slice
from zero-valued elements, `null` sets it to nil (the empty list), anything
else is a type error. -/
def decodeChoices : GoJson.Json → Except String (List choice)
  | .null => .ok []
  | .arr xs => xs.mapM (decodeChoice { Message := { Content := "" } })
  | _ => .error "json: cannot unmarshal value into slice"

/-- Decode a JSON value into the `*struct` pointer field `Error`: `null` sets
the pointer to nil, an object decodes into the pointed-to struct (allocated
zeroed if the pointer was nil), anything else is a type error. -/
def decodeApiError (cur : Option apiError) :
    GoJson.Json → Except String (Option apiError)
  | .null => .ok none
  | .obj fields =>
      (fields.foldlM
        (fun acc kv =>
          if kv.1 = "message" then
            (decodeStringField acc.Message kv.2).map
              (fun s => { acc with Message := s })
          else if kv.1 = "type" then
            (decodeStringField acc.Type' kv.2).map
              (fun s => { acc with Type' := s })
          else if kv.1 = "code" then
            (decodeStringField acc.Code kv.2).map
              (fun s => { acc with Code := s })
          else if unknownKeyOk ["message", "type", "code"] kv.1 then .ok acc
          else .error "json: unsupported field key")
        (cur.getD { Message := "", Type' := "", Code := "" })).map some
  | _ => .error "json: cannot unmarshal value into struct"

/-- Decode a parsed JSON document into `chatCompletionResponse` following
Go's Unmarshal semantics for that struct: top level must be an object (or
`null`, a no-op on the zero value); fields are processed in document order,
later duplicates overwriting earlier ones; unknown fields are skipped. -/
def decodeChatCompletionResponse (j : GoJson.Json) :
    Except String chatCompletionResponse :=
  match j with
  | .null => .ok { Choices := [], Error := none }
  | .obj fields =>
      fields.foldlM
        (fun acc kv =>
          if kv.1 = "choices" then
            (decodeChoices kv.2).map (fun c => { acc with Choices := c })
          else if kv.1 = "error" then
            (decodeApiError acc.Error kv.2).map (fun e => { acc with Error := e })
          else if unknownKeyOk ["choices", "error"] kv.1 then .ok acc
          else .error "json: unsupported field key")
        { Choices := [], Error := none }
  | _ => .error "json: cannot unmarshal value into chatCompletionResponse"

/-- Model of `json.Unmarshal(body, &chatResp)` as used at line 175 of
`openai.go`: parse the whole body as JSON, then decode the document into the
response struct. -/
def unmarshalChatCompletionResponse (body : String) :
    Except String chatCompletionResponse :=
  match GoJson.parseJson body with
  | none => .error "invalid JSON document"
  | some j => decodeChatCompletionResponse j

/-- Lowercase hexadecimal digit, as Go's JSON encoder emits. -/
def hexDigit (n : Nat) : Char :=
  if n < 10 then Char.ofNat (48 + n) else Char.ofNat (87 + n)

/-- Escape one character the way Go's `encoding/json` Marshal does (with its
default HTML escaping of `<`, `>` and `&`). -/
def escapeChar (ch : Char) : List Char :=
  if ch = '"' then ['\\', '"']
  else if ch = '\\' then ['\\', '\\']
  else if ch = '\n' then ['\\', 'n']
  else if ch = '\r' then ['\\', 'r']
  else if ch = '\t' then ['\\', 't']
  else if ch = '<' ∨ ch = '>' ∨ ch = '&' then
    ['\\', 'u', '0', '0', hexDigit (ch.toNat / 16), hexDigit (ch.toNat % 16)]
  else if ch.toNat < 32 then
    ['\\', 'u', '0', '0', hexDigit (ch.toNat / 16), hexDigit (ch.toNat % 16)]
  else if ch.toNat = 8232 ∨ ch.toNat = 8233 then
    ['\\', 'u', '2', '0', '2', hexDigit (ch.toNat % 16)]
  else [ch]

/-- Quote and escape a string as a JSON string literal. -/
def quoteJsonString (s : String) : String :=
  "\"" ++ String.mk (s.data.map escapeChar).flatten ++ "\""

/-- Marshal one `content` part; `text` and `image_url` carry `omitempty`. -/
def marshalContent (c : content) : String :=
  "\x7b\"type\":" ++ quoteJsonString c.Type' ++
  (if c.Text = "" then "" else ",\"text\":" ++ quoteJsonString c.Text) ++
  (match c.ImageURL with
   | none => ""
   | some u => ",\"image_url\":\x7b\"url\":" ++ quoteJsonString u.URL ++ "\x7d") ++
  "\x7d"

/-- Marshal one `message`. -/
def marshalMessage (m : message) : String :=
  "\x7b\"role\":" ++ quoteJsonString m.Role ++ ",\"content\":[" ++
  String.intercalate "," (m.Content.map marshalContent) ++ "]\x7d"

/-- Model of `json.Marshal(chatReq)` at line 150 of `openai.go` (always
succeeds on this struct: it contains only strings and an int). -/
def marshalChatCompletionRequest (r : chatCompletionRequest) : String :=
  "\x7b\"model\":" ++ quoteJsonString r.Model ++ ",\"messages\":[" ++
  String.intercalate "," (r.Messages.map marshalMessage) ++
  "],\"max_tokens\":" ++ toString r.MaxTokens ++ "\x7d"

/-- Message content built at lines 119-135 of `openai.go`: a text part, then
an image part exactly when `Base64Image` is non-empty. -/
def buildMessageContent (req : Request) : List content :=
  let base : List content := [{ Type' := "text", Text := req.Prompt, ImageURL := none }]
  if req.Base64Image ≠ "" then
    base ++ [{ Type' := "image_url", Text := "",
               ImageURL := some { URL := "data:image/jpeg;base64," ++ req.Base64Image } }]
  else base

/-- Request struct built at lines 110-147 of `openai.go`, including the
defaulting of `Model` and `MaxTokens`. -/
def buildChatRequest (req : Request) : chatCompletionRequest :=
  { Model := if req.Model = "" then "gpt-4o" else req.Model
    Messages := [{ Role := "user", Content := buildMessageContent req }]
    MaxTokens := if req.MaxTokens ≤ 0 then 1000 else req.MaxTokens }

/-- Response-parsing stage of `AnalyzeImage` (lines 173-201 of `openai.go`):
unmarshal the body, surface an API error object first, then the empty-choices
failure, otherwise the first choice's content. -/
def parseResponse (body : String) : Response :=
  match unmarshalChatCompletionResponse body with
  | .error e =>
      { Content := "", ErrorMessage := "Failed to parse response: " ++ e,
        Success := false }
  | .ok chatResp =>
      match chatResp.Error with
      | some apiErr =>
          { Content := "", ErrorMessage := "OpenAI API error: " ++ apiErr.Message,
            Success := false }
      | none =>
          match chatResp.Choices with
          | [] =>
              { Content := "", ErrorMessage := "No response from OpenAI API",
                Success := false }
          | c :: _ =>
              { Content := c.Message.Content, ErrorMessage := "", Success := true }

/-- Embedding of `openai.AnalyzeImage`, parameterized by the transport
function `post` (the code calls `httpclient.PostJSON`); the second component
of the result models the Go `error` return value.  The `(none, none)` case of
the transport cannot arise from `PostJSON` (the Go code would dereference a
nil pointer there). -/
def AnalyzeImageWith
    (post : httpclient.Request → Option httpclient.Response × Option String)
    (req : Request) : Response × Option String :=
  if req.APIKey = "" then
    ({ Content := "", ErrorMessage := "API key is required", Success := false }, none)
  else if req.APIURL = "" then
    ({ Content := "", ErrorMessage := "API URL is required", Success := false }, none)
  else if req.Prompt = "" then
    ({ Content := "", ErrorMessage := "Prompt is required", Success := false }, none)
  else
    let jsonBody := marshalChatCompletionRequest (buildChatRequest req)
    let httpReq : httpclient.Request :=
      { URL := req.APIURL, AuthToken := req.APIKey, JSONBody := jsonBody }
    match post httpReq with
    | (_, some err) =>
        ({ Content := "", ErrorMessage := "HTTP request failed: " ++ err,
           Success := false }, none)
    | (some httpResp, none) => (parseResponse httpResp.Body, none)
    | (none, none) =>
        ({ Content := "", ErrorMessage := "", Success := false }, none)

/-- Embedding of `openai.AnalyzeImage` run against the real transport
`httpclient.PostJSON` with network outcome `net`. -/
def AnalyzeImage (net : httpclient.NetworkOutcome) (req : Request) :
    Response × Option String :=
  AnalyzeImageWith (httpclient.PostJSON net) req

end openai

/-- Whether the character list `nee` occurs as a prefix of `hay`. -/
def leadsWith : List Char → List Char → Bool
  | [], _ => true
  | _ :: _, [] => false
  | a :: as, b :: bs => a = b && leadsWith as bs

/-- Whether the character list `nee` occurs contiguously anywhere in `hay`. -/
def occursIn (nee : List Char) : List Char → Bool
  | [] => nee.isEmpty
  | b :: bs => leadsWith nee (b :: bs) || occursIn nee bs

/-- Whether the string `sub` occurs contiguously inside `s`. -/
def containsSub (s sub : String) : Bool :=
  occursIn sub.data s.data

/-- C2: for every request in which the credential (`APIKey`), the endpoint
(`APIURL`), or the prompt text is the empty string, `AnalyzeImage` returns a
Failure identifying the missing field, and the transport function is never
invoked: the result is the same for every transport, so no network I/O can
have occurred. -/
theorem analyzeImage_validation_no_network (req : openai.Request)
    (h : req.APIKey = "" ∨ req.APIURL = "" ∨ req.Prompt = "") :
    (∀ post post',
        openai.AnalyzeImageWith post req = openai.AnalyzeImageWith post' req) ∧
    (∀ post, (openai.AnalyzeImageWith post req).1.Success = false ∧
      (openai.AnalyzeImageWith post req).1.ErrorMessage =
        (if req.APIKey = "" then "API key is required"
         else if req.APIURL = "" then "API URL is required"
         else "Prompt is required")) := by
  by_cases h1 : req.APIKey = "" <;> by_cases h2 : req.APIURL = "" <;>
    by_cases h3 : req.Prompt = "" <;>
    simp [openai.AnalyzeImageWith, h1, h2, h3] at h ⊢

/-- Witness for C2 at a concrete request with an empty API key. -/
theorem analyzeImage_validation_no_network_witness :
    (openai.AnalyzeImageWith (fun _ => (none, none))
        { APIKey := "", APIURL := "u", Model := "", Prompt := "p",
          Base64Image := "", MaxTokens := 5 }).1.ErrorMessage =
      "API key is required" := by
  have h := analyzeImage_validation_no_network
    { APIKey := "", APIURL := "u", Model := "", Prompt := "p",
      Base64Image := "", MaxTokens := 5 } (Or.inl rfl)
  simpa using (h.2 (fun _ => (none, none))).2

/-- C3: for every response body that decodes to the chat-completion schema
with no error object and a non-empty choices list, the parse stage returns
Success whose content is `choices[0].message.content`, whatever the number of
further choices. -/
theorem parseResponse_success_first_choice
    (body : String) (r : openai.chatCompletionResponse) (c : openai.choice)
    (rest : List openai.choice)
    (hdec : openai.unmarshalChatCompletionResponse body = .ok r)
    (herr : r.Error = none) (hch : r.Choices = c :: rest) :
    openai.parseResponse body =
      { Content := c.Message.Content, ErrorMessage := "", Success := true } := by
  simp only [openai.parseResponse, hdec, herr, hch]

/-- Witness for C3 at a concrete two-choice body. -/
theorem parseResponse_success_first_choice_witness :
    openai.parseResponse
      "\x7b\"choices\":[\x7b\"message\":\x7b\"content\":\"Amanita\"\x7d\x7d,\x7b\"message\":\x7b\"content\":\"Boletus\"\x7d\x7d]\x7d" =
      { Content := "Amanita", ErrorMessage := "", Success := true } :=
  parseResponse_success_first_choice _
    { Choices := [{ Message := { Content := "Amanita" } },
                  { Message := { Content := "Boletus" } }], Error := none }
    { Message := { Content := "Amanita" } }
    [{ Message := { Content := "Boletus" } }] rfl rfl rfl

/-- C4: for every valid request the built payload consists of a single user
message whose content is the text part alone when `Base64Image` is empty, and
the text part followed by an `image_url` part carrying the
`data:image/jpeg;base64,` data URI when it is non-empty. -/
theorem buildChatRequest_image_part_iff (req : openai.Request)
    (hk : req.APIKey ≠ "") (hu : req.APIURL ≠ "") (hp : req.Prompt ≠ "") :
    (openai.buildChatRequest req).Messages =
      [{ Role := "user",
         Content :=
           if req.Base64Image = "" then
             [{ Type' := "text", Text := req.Prompt, ImageURL := none }]
           else
             [{ Type' := "text", Text := req.Prompt, ImageURL := none },
              { Type' := "image_url", Text := "",
                ImageURL := some { URL := "data:image/jpeg;base64," ++ req.Base64Image } }] }] := by
  by_cases h : req.Base64Image = "" <;>
    simp [openai.buildChatRequest, openai.buildMessageContent, h]

/-- Witness for C4 at a concrete request carrying image data. -/
theorem buildChatRequest_image_part_iff_witness :
    (openai.buildChatRequest
      { APIKey := "k", APIURL := "u", Model := "m", Prompt := "p",
        Base64Image := "QUJD", MaxTokens := 10 }).Messages =
      [{ Role := "user",
         Content := [{ Type' := "text", Text := "p", ImageURL := none },
                     { Type' := "image_url", Text := "",
                       ImageURL := some { URL := "data:image/jpeg;base64,QUJD" } }] }] := by
  have h := buildChatRequest_image_part_iff
    { APIKey := "k", APIURL := "u", Model := "m", Prompt := "p",
      Base64Image := "QUJD", MaxTokens := 10 }
    (by decide) (by decide) (by decide)
  simpa using h

/-- C5 counterexample: on the body `{"choices":[]}` (which decodes to the
schema with no error object and empty choices) the parse stage's message is
`"No response from OpenAI API"`, not the claimed `"No response from API"`. -/
theorem parseResponse_empty_choices_cx :
    openai.unmarshalChatCompletionResponse "\x7b\"choices\":[]\x7d" =
        .ok { Choices := [], Error := none } ∧
    (openai.parseResponse "\x7b\"choices\":[]\x7d").Success = false ∧
    (openai.parseResponse "\x7b\"choices\":[]\x7d").ErrorMessage ≠
      "No response from API" :=
  ⟨rfl, rfl, by decide⟩

/-- C5 (amended): for every response body that decodes to the chat-completion
schema with no error object and an empty choices list, the parse stage
returns Failure with exactly the message `"No response from OpenAI API"`. -/
theorem parseResponse_empty_choices_message (body : String)
    (r : openai.chatCompletionResponse)
    (hdec : openai.unmarshalChatCompletionResponse body = .ok r)
    (herr : r.Error = none) (hch : r.Choices = []) :
    openai.parseResponse body =
      { Content := "", ErrorMessage := "No response from OpenAI API",
        Success := false } := by
  simp only [openai.parseResponse, hdec, herr, hch]

/-- Witness for the amended C5 at the concrete body `{"choices":[]}`. -/
theorem parseResponse_empty_choices_message_witness :
    openai.parseResponse "\x7b\"choices\":[]\x7d" =
      { Content := "", ErrorMessage := "No response from OpenAI API",
        Success := false } :=
  parseResponse_empty_choices_message _ { Choices := [], Error := none }
    rfl rfl rfl

/-- C7: a zero-byte readable file always yields the empty-file error and
never an encoded result, and a failed read (missing or unreadable path)
yields the wrapped I/O error. -/
theorem readImageToBase64_empty_and_io_errors
    (res : Except String (List Nat)) (filename : String) :
    (res = .ok [] →
      base64.ReadImageToBase64 res filename =
        .error ("file " ++ filename ++ " is empty")) ∧
    (∀ e, res = .error e →
      base64.ReadImageToBase64 res filename =
        .error ("failed to read file " ++ filename ++ ": " ++ e)) := by
  constructor
  · rintro rfl
    simp [base64.ReadImageToBase64]
  · rintro e rfl
    simp [base64.ReadImageToBase64]

/-- Witness for C7 at a concrete empty file and a concrete failed read. -/
theorem readImageToBase64_empty_and_io_errors_witness :
    base64.ReadImageToBase64 (.ok []) "img.jpg" =
      .error ("file " ++ "img.jpg" ++ " is empty") ∧
    base64.ReadImageToBase64 (.error "no such file") "img.jpg" =
      .error ("failed to read file " ++ "img.jpg" ++ ": " ++ "no such file") :=
  ⟨(readImageToBase64_empty_and_io_errors (.ok []) "img.jpg").1 rfl,
   (readImageToBase64_empty_and_io_errors (.error "no such file") "img.jpg").2
     "no such file" rfl⟩

/-- C8: for every valid request the payload's model is `"gpt-4o"` when the
model field is empty and the caller's value otherwise, and its max-tokens is
1000 when the field is non-positive and the caller's value otherwise. -/
theorem buildChatRequest_default_model_and_tokens (req : openai.Request)
    (hk : req.APIKey ≠ "") (hu : req.APIURL ≠ "") (hp : req.Prompt ≠ "") :
    (openai.buildChatRequest req).Model =
      (if req.Model = "" then "gpt-4o" else req.Model) ∧
    (openai.buildChatRequest req).MaxTokens =
      (if req.MaxTokens ≤ 0 then 1000 else req.MaxTokens) :=
  ⟨rfl, rfl⟩

/-- Witness for C8 at a concrete request with empty model and zero tokens. -/
theorem buildChatRequest_default_model_and_tokens_witness :
    (openai.buildChatRequest
      { APIKey := "k", APIURL := "u", Model := "", Prompt := "p",
        Base64Image := "", MaxTokens := 0 }).Model = "gpt-4o" ∧
    (openai.buildChatRequest
      { APIKey := "k", APIURL := "u", Model := "", Prompt := "p",
        Base64Image := "", MaxTokens := 0 }).MaxTokens = 1000 := by
  have h := buildChatRequest_default_model_and_tokens
    { APIKey := "k", APIURL := "u", Model := "", Prompt := "p",
      Base64Image := "", MaxTokens := 0 } (by decide) (by decide) (by decide)
  simpa using h

/-- C9: for every exchange completing with status ≥ 400 and a readable body,
`PostJSON` returns the response (body and status) together with a non-nil
error, in the same call. -/
theorem postJSON_http_error_returns_body_and_error (req : httpclient.Request)
    (status : Int) (body : String) (h : 400 ≤ status) :
    httpclient.PostJSON (.httpResponse status body) req =
      (some { Body := body, StatusCode := status },
       some ("HTTP error " ++ toString status ++ ": " ++ body)) := by
  simp [httpclient.PostJSON, h]

/-- Witness for C9 at status 404. -/
theorem postJSON_http_error_returns_body_and_error_witness :
    httpclient.PostJSON (.httpResponse 404 "nope")
        { URL := "u", AuthToken := "t", JSONBody := "\x7b\x7d" } =
      (some { Body := "nope", StatusCode := 404 },
       some ("HTTP error " ++ toString (404 : Int) ++ ": " ++ "nope")) :=
  postJSON_http_error_returns_body_and_error
    { URL := "u", AuthToken := "t", JSONBody := "\x7b\x7d" } 404 "nope" (by decide)

/-- Helper: a string append whose left part has positive length is not the
empty string. -/
theorem append_ne_empty_of_left (s t : String) (h : s.length ≠ 0) :
    s ++ t ≠ "" := by
  intro hc
  have hlen := congrArg String.length hc
  rw [String.length_append] at hlen
  have h0 : ("" : String).length = 0 := rfl
  omega

/-- Helper: every failure produced by the parse stage carries a non-empty
message. -/
theorem parseResponse_failure_nonempty (body : String) :
    (openai.parseResponse body).Success = true ∨
      (openai.parseResponse body).ErrorMessage ≠ "" := by
  unfold openai.parseResponse
  cases hdec : openai.unmarshalChatCompletionResponse body with
  | error e =>
      right
      exact append_ne_empty_of_left "Failed to parse response: " e (by decide)
  | ok r =>
      cases herr : r.Error with
      | some apiErr =>
          right
          simp only [herr]
          exact append_ne_empty_of_left "OpenAI API error: " apiErr.Message (by decide)
      | none =>
          cases hch : r.Choices with
          | nil =>
              right
              simp only [herr, hch]
              decide
          | cons c cs =>
              left
              simp only [herr, hch]

/-- C10: for every transport outcome and every request, the Go `error` return
of `AnalyzeImage` is nil; every outcome is encoded in the returned `Response`:
success with `Success = true`, or failure with a non-empty `ErrorMessage`. -/
theorem analyzeImage_go_error_always_nil (net : httpclient.NetworkOutcome)
    (req : openai.Request) :
    (openai.AnalyzeImage net req).2 = none ∧
    ((openai.AnalyzeImage net req).1.Success = true ∨
     (openai.AnalyzeImage net req).1.ErrorMessage ≠ "") := by
  unfold openai.AnalyzeImage openai.AnalyzeImageWith
  by_cases h1 : req.APIKey = ""
  · simp [h1]
  · by_cases h2 : req.APIURL = ""
    · simp [h1, h2]
    · by_cases h3 : req.Prompt = ""
      · simp [h1, h2, h3]
      · simp only [h1, h2, h3, if_neg, if_false]
        cases net with
        | createRequestFailure e =>
            refine ⟨by simp [httpclient.PostJSON], Or.inr ?_⟩
            simpa [httpclient.PostJSON] using
              append_ne_empty_of_left "HTTP request failed: "
                ("failed to create request: " ++ e) (by decide)
        | performFailure e =>
            refine ⟨by simp [httpclient.PostJSON], Or.inr ?_⟩
            simpa [httpclient.PostJSON] using
              append_ne_empty_of_left "HTTP request failed: "
                ("failed to perform request: " ++ e) (by decide)
        | readBodyFailure e =>
            refine ⟨by simp [httpclient.PostJSON], Or.inr ?_⟩
            simpa [httpclient.PostJSON] using
              append_ne_empty_of_left "HTTP request failed: "
                ("failed to read response body: " ++ e) (by decide)
        | httpResponse status body =>
            by_cases hs : (400 : Int) ≤ status
            · refine ⟨by simp [httpclient.PostJSON, hs], Or.inr ?_⟩
              simpa [httpclient.PostJSON, hs] using
                append_ne_empty_of_left "HTTP request failed: "
                  ("HTTP error " ++ toString status ++ ": " ++ body) (by decide)
            · simpa [httpclient.PostJSON, hs] using
                parseResponse_failure_nonempty body

/-- Helper: a list is a prefix of itself under `leadsWith`. -/
theorem leadsWith_refl (l : List Char) : leadsWith l l = true := by
  induction l with
  | nil => rfl
  | cons a as ih => simp [leadsWith, ih]

/-- Helper: a list occurs in any list that ends with it. -/
theorem occursIn_append_self (pre l : List Char) :
    occursIn l (pre ++ l) = true := by
  induction pre with
  | nil =>
      cases l with
      | nil => rfl
      | cons a as => simp [occursIn, leadsWith_refl]
  | cons b bs ih => simp [occursIn, ih]

/-- Helper: a string contains any of its suffixes. -/
theorem containsSub_append_self (pre m : String) :
    containsSub (pre ++ m) m = true := by
  unfold containsSub
  rw [String.data_append]
  exact occursIn_append_self pre.data m.data

/-- C1 counterexample: the body `{"error":{"message":"bad \"key\""}}` carries
an explicit API error object whose message is `bad "key"`, yet with HTTP
status 401 the pipeline returns the transport-error failure, whose message
embeds the raw (escaped) body and does not contain the error object's
message: the error object does not take precedence when the status is
≥ 400. -/
theorem analyzeImage_api_error_status_cx :
    openai.unmarshalChatCompletionResponse
        "\x7b\"error\":\x7b\"message\":\"bad \\\"key\\\"\"\x7d\x7d" =
      .ok { Choices := [],
            Error := some { Message := "bad \"key\"", Type' := "", Code := "" } } ∧
    (openai.AnalyzeImage
        (.httpResponse 401 "\x7b\"error\":\x7b\"message\":\"bad \\\"key\\\"\"\x7d\x7d")
        { APIKey := "k", APIURL := "u", Model := "", Prompt := "p",
          Base64Image := "", MaxTokens := 0 }).1.Success = false ∧
    containsSub
      (openai.AnalyzeImage
          (.httpResponse 401 "\x7b\"error\":\x7b\"message\":\"bad \\\"key\\\"\"\x7d\x7d")
          { APIKey := "k", APIURL := "u", Model := "", Prompt := "p",
            Base64Image := "", MaxTokens := 0 }).1.ErrorMessage
      "bad \"key\"" = false :=
  ⟨rfl, rfl, by decide⟩

/-- C1 (amended): for every valid request and every completed exchange with
HTTP status < 400 whose body decodes to the schema carrying an explicit API
error object, the pipeline returns Failure with the message
`"OpenAI API error: "` followed by the error object's message — which in
particular contains that message — and this takes precedence over the choices
list; for status ≥ 400 the transport-error path wins instead and only the raw
body is embedded. -/
theorem analyzeImage_api_error_lt400 (req : openai.Request) (status : Int)
    (body : String) (r : openai.chatCompletionResponse) (e : openai.apiError)
    (hk : req.APIKey ≠ "") (hu : req.APIURL ≠ "") (hp : req.Prompt ≠ "")
    (hs : status < 400)
    (hdec : openai.unmarshalChatCompletionResponse body = .ok r)
    (herr : r.Error = some e) :
    (openai.AnalyzeImage (.httpResponse status body) req).1 =
      { Content := "", ErrorMessage := "OpenAI API error: " ++ e.Message,
        Success := false } ∧
    containsSub
      (openai.AnalyzeImage (.httpResponse status body) req).1.ErrorMessage
      e.Message = true := by
  have hns : ¬ (400 : Int) ≤ status := not_le.mpr hs
  have hmain : (openai.AnalyzeImage (.httpResponse status body) req).1 =
      { Content := "", ErrorMessage := "OpenAI API error: " ++ e.Message,
        Success := false } := by
    unfold openai.AnalyzeImage openai.AnalyzeImageWith
    rw [if_neg hk, if_neg hu, if_neg hp]
    simp only [httpclient.PostJSON, if_neg hns, openai.parseResponse, hdec, herr]
  refine ⟨hmain, ?_⟩
  rw [hmain]
  exact containsSub_append_self "OpenAI API error: " e.Message

/-- Witness for the amended C1 at status 200 and a concrete error body. -/
theorem analyzeImage_api_error_lt400_witness :
    (openai.AnalyzeImage
        (.httpResponse 200 "\x7b\"error\":\x7b\"message\":\"bad key\"\x7d\x7d")
        { APIKey := "k", APIURL := "u", Model := "", Prompt := "p",
          Base64Image := "", MaxTokens := 0 }).1 =
      { Content := "", ErrorMessage := "OpenAI API error: " ++ "bad key",
        Success := false } ∧
    containsSub
      (openai.AnalyzeImage
          (.httpResponse 200 "\x7b\"error\":\x7b\"message\":\"bad key\"\x7d\x7d")
          { APIKey := "k", APIURL := "u", Model := "", Prompt := "p",
            Base64Image := "", MaxTokens := 0 }).1.ErrorMessage
      "bad key" = true :=
  analyzeImage_api_error_lt400
    { APIKey := "k", APIURL := "u", Model := "", Prompt := "p",
      Base64Image := "", MaxTokens := 0 } 200
    "\x7b\"error\":\x7b\"message\":\"bad key\"\x7d\x7d"
    { Choices := [],
      Error := some { Message := "bad key", Type' := "", Code := "" } }
    { Message := "bad key", Type' := "", Code := "" }
    (by decide) (by decide) (by decide) (by decide) rfl rfl

namespace base64

/-- Helper: decoding inverts encoding on every sextet. -/
theorem dec6_encChar : ∀ n : Nat, n < 64 → dec6 (encChar n) = n := by decide

/-- Helper: every encoded sextet is an alphabet character. -/
theorem validB64_encChar : ∀ n : Nat, n < 64 → validB64 (encChar n) = true := by
  decide

/-- Helper: no encoded sextet is the padding character. -/
theorem encChar_ne_pad : ∀ n : Nat, n < 64 → encChar n ≠ '=' := by decide

/-- Helper: base64 decoding inverts base64 encoding on every byte list. -/
theorem decB64_encB64 : ∀ B : List Nat, (∀ b ∈ B, b < 256) →
    decB64 (encB64 B) = some B
  | [], _ => by simp [encB64, decB64]
  | [b1], h => by
      have hb1 : b1 < 256 := h b1 (by simp)
      have s1 : b1 / 4 < 64 := by omega
      have s2 : b1 % 4 * 16 < 64 := by omega
      simp [encB64, decB64, validB64_encChar _ s1, validB64_encChar _ s2,
        dec6_encChar _ s1, dec6_encChar _ s2]
      omega
  | [b1, b2], h => by
      have hb1 : b1 < 256 := h b1 (by simp)
      have hb2 : b2 < 256 := h b2 (by simp)
      have s1 : b1 / 4 < 64 := by omega
      have s2 : b1 % 4 * 16 + b2 / 16 < 64 := by omega
      have s3 : b2 % 16 * 4 < 64 := by omega
      simp [encB64, decB64, validB64_encChar _ s1, validB64_encChar _ s2,
        validB64_encChar _ s3, encChar_ne_pad _ s3, dec6_encChar _ s1,
        dec6_encChar _ s2, dec6_encChar _ s3]
      constructor <;> omega
  | b1 :: b2 :: b3 :: rest, h => by
      have hb1 : b1 < 256 := h b1 (by simp)
      have hb2 : b2 < 256 := h b2 (by simp)
      have hb3 : b3 < 256 := h b3 (by simp)
      have hrest : ∀ b ∈ rest, b < 256 := fun b hb => h b (by simp [hb])
      have IH := decB64_encB64 rest hrest
      have s1 : b1 / 4 < 64 := by omega
      have s2 : b1 % 4 * 16 + b2 / 16 < 64 := by omega
      have s3 : b2 % 16 * 4 + b3 / 64 < 64 := by omega
      have s4 : b3 % 64 < 64 := by omega
      simp [encB64, decB64, validB64_encChar _ s1, validB64_encChar _ s2,
        validB64_encChar _ s3, validB64_encChar _ s4, encChar_ne_pad _ s3,
        encChar_ne_pad _ s4, dec6_encChar _ s1, dec6_encChar _ s2,
        dec6_encChar _ s3, dec6_encChar _ s4, IH]
      refine ⟨?_, ?_, ?_⟩ <;> omega

end base64

/-- C6: for every non-empty byte sequence `B`, standard padded RFC 4648
base64-decoding of the string produced by `EncodeData B` yields exactly
`B`. -/
theorem encodeData_base64_roundtrip (B : List Nat) (hne : B ≠ [])
    (hbytes : ∀ b ∈ B, b < 256) :
    base64.decB64 (base64.EncodeData B).data = some B :=
  base64.decB64_encB64 B hbytes

/-- Witness for C6 on the byte sequence of the ASCII string `Man`. -/
theorem encodeData_base64_roundtrip_witness :
    ([77, 97, 110] : List Nat) ≠ [] ∧
    base64.decB64 (base64.EncodeData [77, 97, 110]).data =
      some [77, 97, 110] :=
  ⟨by decide, encodeData_base64_roundtrip [77, 97, 110] (by decide) (by decide)⟩
